import Mathlib

/-!
Verification development for the NoCap verification-and-consensus pipeline.

The definitions below are a shallow embedding of the TypeScript sources:
  * `verification-service.ts` (multi-agent verification, local consensus,
    correction synthesis),
  * `semantic-service.ts` (statement splitting and remote classification),
  * `voice-service.ts` (local statement-type heuristics),
  * the `processStatement` / interjection logic of the main app component.

Remote network calls are modelled by explicit outcome parameters
(`CallOutcome`): a call is either not configured (no API key), fails
(throws / non-ok response), or succeeds with parsed data.  Floating-point
scores are modelled by rationals; JavaScript strings by `String` or
`List Char` where character-level scanning is required.
-/

/-- Agent verdict values, from the `"true" | "false" | "inconclusive"`
union type of `verification-service.ts`. -/
inductive Verdict where
  | true
  | false
  | inconclusive
deriving DecidableEq, Repr

/-- Verdict record of one agent (`VerificationAgent` in
`verification-service.ts`): name, verdict, confidence, optional reasoning
and optional citations. -/
structure VerificationAgent where
  name : String
  verdict : Verdict
  confidence : ℚ
  reasoning : Option String
  citations : Option (List String)
deriving DecidableEq, Repr

/-- Consensus verdict plus score, the return shape of
`getLavaGatewayConsensus` / `calculateLocalConsensus`. -/
structure LavaConsensus where
  verdict : Verdict
  consensusScore : ℚ
deriving DecidableEq, Repr

/-- Number of agents whose verdict is `false`
(`agents.filter((a) => a.verdict === "false").length`). -/
def falseCount (agents : List VerificationAgent) : ℕ :=
  (agents.filter fun a => a.verdict = Verdict.false).length

/-- Number of agents whose verdict is `true`. -/
def trueCount (agents : List VerificationAgent) : ℕ :=
  (agents.filter fun a => a.verdict = Verdict.true).length

/-- Number of agents whose verdict is `inconclusive`. -/
def inconclusiveCount (agents : List VerificationAgent) : ℕ :=
  (agents.filter fun a => a.verdict = Verdict.inconclusive).length

/-- The fixed 60% consensus threshold (`const consensusThreshold = 0.6`). -/
def consensusThreshold : ℚ := 0.6

/-- Local consensus fallback, a direct port of `calculateLocalConsensus`
(verification-service.ts lines 515-543): if the false fraction reaches the
threshold the verdict is `false` with that fraction as score; else the
same for `true`; else `inconclusive` with score
`Math.max(falseCount, trueCount, inconclusiveCount) / totalVotes`. -/
def calculateLocalConsensus (agents : List VerificationAgent) : LavaConsensus :=
  let totalVotes := agents.length
  if (falseCount agents : ℚ) / totalVotes ≥ consensusThreshold then
    ⟨Verdict.false, (falseCount agents : ℚ) / totalVotes⟩
  else if (trueCount agents : ℚ) / totalVotes ≥ consensusThreshold then
    ⟨Verdict.true, (trueCount agents : ℚ) / totalVotes⟩
  else
    ⟨Verdict.inconclusive,
      ((max (max (falseCount agents) (trueCount agents)) (inconclusiveCount agents) : ℕ) : ℚ)
        / totalVotes⟩

/-- An agent list realising Scenario B of the spec:
verdicts {True, True, Inconclusive, Inconclusive, Inconclusive}. -/
def scenarioB : List VerificationAgent :=
  [ ⟨"Claude (Anthropic)", Verdict.true, 9/10, some "r1", none⟩
  , ⟨"Fetch.ai", Verdict.true, 8/10, some "r2", none⟩
  , ⟨"Gemini (Google)", Verdict.inconclusive, 0, some "r3", none⟩
  , ⟨"Bright Data", Verdict.inconclusive, 3/10, some "r4", none⟩
  , ⟨"Llama (Lava Portal)", Verdict.inconclusive, 0, some "r5", none⟩ ]

/-- Outcome of one remote call: the service is not configured (no API key),
the call throws / returns a non-ok response (with an error message), or it
succeeds with parsed data. -/
inductive CallOutcome (α : Type) where
  | notConfigured
  | failure (msg : String)
  | success (val : α)
deriving DecidableEq

/-- JavaScript `x || dflt` for an optional number (`0` and `undefined` are
falsy). -/
def jsOrNum (x : Option ℚ) (dflt : ℚ) : ℚ :=
  match x with
  | some v => if v = 0 then dflt else v
  | none => dflt

/-- JavaScript `x || dflt` for an optional string (`""` and `undefined` are
falsy). -/
def jsOrStr (x : Option String) (dflt : String) : String :=
  match x with
  | some s => if s = "" then dflt else s
  | none => dflt

/-- Parsed JSON body of a Claude/Gemini fact-check response. -/
structure ClaudeParsed where
  verdict : Verdict
  confidence : ℚ
  reasoning : String
deriving DecidableEq

/-- Parsed JSON body of a Fetch.ai response; every field may be absent. -/
structure FetchAIData where
  verdict : Option Verdict
  confidence : Option ℚ
  reasoning : Option String
deriving DecidableEq

/-- Parsed JSON body of a Bright Data search response (`data.results`). -/
structure BrightDataData where
  results : Option (List String)
deriving DecidableEq

/-- Parsed JSON body of a Llama (Lava Portal) response. -/
structure LlamaParsed where
  verdict : Verdict
  confidence : ℚ
  reasoning : String
  citations : Option (List String)
deriving DecidableEq

/-- Parsed JSON body of a Lava Gateway consensus response. -/
structure LavaConsensusData where
  verdict : Verdict
  score : ℚ
deriving DecidableEq

/-- Port of `verifyWithClaude` (verification-service.ts lines 136-202): no
API key or a thrown error yields an Inconclusive verdict with confidence 0
and a reasoning carrying the failure reason. -/
def verifyWithClaude : CallOutcome ClaudeParsed → VerificationAgent
  | .notConfigured =>
    ⟨"Claude (Anthropic)", .inconclusive, 0, some "API key not configured", none⟩
  | .failure msg =>
    ⟨"Claude (Anthropic)", .inconclusive, 0, some ("Error: " ++ msg), none⟩
  | .success r =>
    ⟨"Claude (Anthropic)", r.verdict, r.confidence, some r.reasoning, none⟩

/-- Port of `verifyWithFetchAI` (lines 207-257); on success missing JSON
fields get JavaScript `||` defaults. -/
def verifyWithFetchAI : CallOutcome FetchAIData → VerificationAgent
  | .notConfigured =>
    ⟨"Fetch.ai", .inconclusive, 0, some "API key not configured", none⟩
  | .failure msg =>
    ⟨"Fetch.ai", .inconclusive, 0, some ("Error: " ++ msg), none⟩
  | .success d =>
    ⟨"Fetch.ai", d.verdict.getD .inconclusive, jsOrNum d.confidence (8/10),
      some (jsOrStr d.reasoning "Fetch.ai agent verification"), none⟩

/-- Port of `verifyWithGemini` (lines 262-332). -/
def verifyWithGemini : CallOutcome ClaudeParsed → VerificationAgent
  | .notConfigured =>
    ⟨"Gemini (Google)", .inconclusive, 0, some "API key not configured", none⟩
  | .failure msg =>
    ⟨"Gemini (Google)", .inconclusive, 0, some ("Error: " ++ msg), none⟩
  | .success r =>
    ⟨"Gemini (Google)", r.verdict, r.confidence, some r.reasoning, none⟩

/-- Port of `verifyWithBrightData` (lines 406-462): verdict depends on
whether `data.results && data.results.length > 0` is truthy. -/
def verifyWithBrightData : CallOutcome BrightDataData → VerificationAgent
  | .notConfigured =>
    ⟨"Bright Data", .inconclusive, 0, some "API key not configured", none⟩
  | .failure msg =>
    ⟨"Bright Data", .inconclusive, 0, some ("Error: " ++ msg), none⟩
  | .success d =>
    let hasResults : Bool :=
      match d.results with
      | some rs => decide (0 < rs.length)
      | none => Bool.false
    if hasResults then
      ⟨"Bright Data", .true, 3/4, some "Found supporting web sources", none⟩
    else
      ⟨"Bright Data", .inconclusive, 3/10, some "No conclusive web sources found", none⟩

/-- Port of `verifyWithLlama` (lines 337-401): the success path defaults
missing citations to the empty list (`result.citations || []`). -/
def verifyWithLlama : CallOutcome LlamaParsed → VerificationAgent
  | .notConfigured =>
    ⟨"Llama (Lava Portal)", .inconclusive, 0, some "Lava Gateway API key not configured", none⟩
  | .failure msg =>
    ⟨"Llama (Lava Portal)", .inconclusive, 0, some ("Error: " ++ msg), none⟩
  | .success r =>
    ⟨"Llama (Lava Portal)", r.verdict, r.confidence, some r.reasoning,
      some (r.citations.getD [])⟩

/-- Port of `getLavaGatewayConsensus` (lines 467-510): no API key or any
call failure falls back to `calculateLocalConsensus`. -/
def getLavaGatewayConsensus (call : CallOutcome LavaConsensusData)
    (agents : List VerificationAgent) : LavaConsensus :=
  match call with
  | .notConfigured => calculateLocalConsensus agents
  | .failure _ => calculateLocalConsensus agents
  | .success d => ⟨d.verdict, d.score⟩

/-- Agents whose verdict is `false`
(`agents.filter((a) => a.verdict === "false")`). -/
def falseVoters (agents : List VerificationAgent) : List VerificationAgent :=
  agents.filter fun a => decide (a.verdict = Verdict.false)

/-- Reasonings of the False-voting agents, keeping only truthy strings
(`.map((a) => a.reasoning).filter((r): r is string => !!r)`): an absent or
empty reasoning is dropped. -/
def falseReasonings (agents : List VerificationAgent) : List String :=
  (falseVoters agents).filterMap fun a =>
    match a.reasoning with
    | some s => if s = "" then none else some s
    | none => none

/-- Concatenated citations of the False-voting agents
(`.flatMap((a) => a.citations || [])`); note: no deduplication. -/
def allCitations (agents : List VerificationAgent) : List String :=
  (falseVoters agents).flatMap fun a => a.citations.getD []

/-- The fixed message returned when no truthy False-reasoning exists. -/
def genericFalseMessage : String :=
  "The statement has been determined to be false, but specific corrections are unavailable."

/-- Port of `generateCorrectInformation` (lines 548-618).  If the list of
truthy False-voter reasonings is empty the generic message with empty
citations is returned before any synthesis attempt; otherwise a successful
remote synthesis yields its text, and an unconfigured, failed or non-ok
call falls back to quoting the first truthy reasoning with the fixed
`Correction:` label.  Citations are `allCitations` in both non-generic
branches. -/
def generateCorrectInformation (falseStatement : String)
    (agents : List VerificationAgent) (synth : CallOutcome String) :
    String × List String :=
  match falseReasonings agents with
  | [] => (genericFalseMessage, [])
  | r :: _ =>
    match synth with
    | .success text => (text, allCitations agents)
    | _ => ("Correction: " ++ r, allCitations agents)

/-- Final consensus label of a `VerificationResult`. -/
inductive ConsensusLabel where
  | verified_true
  | verified_false
  | inconclusive
deriving DecidableEq

/-- The `VerificationResult` record of verification-service.ts. -/
structure VerificationResultS where
  statementId : String
  isFalse : Bool
  consensus : ConsensusLabel
  correctInformation : Option String
  citations : Option (List String)
  agents : List VerificationAgent
  lavaGatewayConsensus : LavaConsensus
deriving DecidableEq

/-- One outcome per agent call dispatched by `verifyStatement`, in the
dispatch order of its `Promise.all` (Claude, Fetch.ai, Gemini, Bright
Data, Llama). -/
structure AgentOutcomes where
  claude : CallOutcome ClaudeParsed
  fetchAI : CallOutcome FetchAIData
  gemini : CallOutcome ClaudeParsed
  brightData : CallOutcome BrightDataData
  llama : CallOutcome LlamaParsed

/-- The `agents` array built by `verifyStatement` (lines 75-81) from the
five settled call outcomes, in dispatch order. -/
def resultAgents (o : AgentOutcomes) : List VerificationAgent :=
  [ verifyWithClaude o.claude
  , verifyWithFetchAI o.fetchAI
  , verifyWithGemini o.gemini
  , verifyWithBrightData o.brightData
  , verifyWithLlama o.llama ]

/-- Port of `verifyStatement` (lines 54-131).  The `Promise.all` is
modelled by collecting all five settled outcomes into the agents list;
the consensus is computed from that full list, and only a `false` final
verdict triggers correction synthesis. -/
def verifyStatement (statementId : String) (statement : String)
    (o : AgentOutcomes) (consensusCall : CallOutcome LavaConsensusData)
    (synth : CallOutcome String) : VerificationResultS :=
  let agents : List VerificationAgent := resultAgents o
  let lavaGatewayConsensus := getLavaGatewayConsensus consensusCall agents
  let isFalse : Bool := decide (lavaGatewayConsensus.verdict = Verdict.false)
  let consensus : ConsensusLabel :=
    if lavaGatewayConsensus.verdict = Verdict.true then .verified_true
    else if lavaGatewayConsensus.verdict = Verdict.false then .verified_false
    else .inconclusive
  let correctionData : Option String × Option (List String) :=
    if isFalse then
      let p := generateCorrectInformation statement agents synth
      (some p.1, some p.2)
    else (none, none)
  ⟨statementId, isFalse, consensus, correctionData.1, correctionData.2,
    agents, lavaGatewayConsensus⟩

/-! String-scanning primitives.  JavaScript strings are modelled as
`List Char`; `toLowerCase`, `trim`, `includes`, `startsWith`, `endsWith`,
`split` and the word-boundary regex tests used by the services are
implemented below on character lists. -/

/-- `text.toLowerCase()`. -/
def toLowerL (l : List Char) : List Char := l.map Char.toLower

/-- `text.trim()`: strip leading and trailing whitespace. -/
def trimL (l : List Char) : List Char :=
  ((l.dropWhile Char.isWhitespace).reverse.dropWhile Char.isWhitespace).reverse

/-- Case-insensitive character comparison (regex `i` flag). -/
def lowerEq (a b : Char) : Bool := a.toLower == b.toLower

/-- Does `l` start with pattern `p`, case-insensitively? -/
def startsWithCI : List Char → List Char → Bool
  | _, [] => Bool.true
  | [], _ :: _ => Bool.false
  | c :: cs, p :: ps => lowerEq c p && startsWithCI cs ps

/-- Does `l` contain pattern `p` as a substring, case-insensitively? -/
def containsCI : List Char → List Char → Bool
  | [], p => p.isEmpty
  | c :: cs, p => startsWithCI (c :: cs) p || containsCI cs p

/-- Does `l` end with pattern `p`, case-insensitively? -/
def endsWithCI (l p : List Char) : Bool := startsWithCI l.reverse p.reverse

/-- Sentence-terminating separators of `currentText.split(/[.;]+/)`. -/
def isSentenceSep (c : Char) : Bool := c == '.' || c == ';'

/-- Split on single separator characters.  the JavaScript regex `/[.;]+/` merges
separator runs, producing no interior empty pieces; this version keeps
them, and the caller filters out whitespace-only pieces, after which the
two behaviours coincide. -/
def splitSentencesAux : List Char → List Char → List (List Char)
  | [], acc => [acc.reverse]
  | c :: cs, acc =>
    if isSentenceSep c then acc.reverse :: splitSentencesAux cs []
    else splitSentencesAux cs (c :: acc)

/-- `currentText.split(/[.;]+/)` (up to interior empty pieces, see
`splitSentencesAux`). -/
def splitSentences (l : List Char) : List (List Char) := splitSentencesAux l []

/-- Fuelled worker for `remainingText.split(new RegExp(conj, "gi"))`:
leftmost non-overlapping case-insensitive occurrences of `sep` separate
the pieces.  Fuel `l.length + 1` always suffices because every step
consumes at least one character of `l`. -/
def splitOnCIAux (sep : List Char) : ℕ → List Char → List Char → List (List Char)
  | 0, l, acc => [acc.reverse ++ l]
  | Nat.succ fuel, l, acc =>
    match l with
    | [] => [acc.reverse]
    | c :: cs =>
      if startsWithCI (c :: cs) sep && !sep.isEmpty then
        acc.reverse :: splitOnCIAux sep fuel ((c :: cs).drop sep.length) []
      else
        splitOnCIAux sep fuel cs (c :: acc)

/-- `text.split(new RegExp(sep, "gi"))` for a literal separator `sep`. -/
def splitOnCI (l sep : List Char) : List (List Char) :=
  splitOnCIAux sep (l.length + 1) l []

/-- Regex `\w`: ASCII letter, digit or underscore. -/
def isWordChar (c : Char) : Bool := c.isAlpha || c.isDigit || c == '_'

/-- A `\b` word boundary next to the matched word: end of string or a
non-word character. -/
def boundaryOk : Option Char → Bool
  | none => Bool.true
  | some c => !isWordChar c

/-- Does `l` begin with the word `w` followed by a word boundary? -/
def matchesWordAt (l w : List Char) : Bool :=
  startsWithCI l w && boundaryOk (l.drop w.length).head?

/-- Worker for `hasWordFrom`, carrying the previous character to decide
the left word boundary. -/
def hasWordFromAux (ws : List (List Char)) : Option Char → List Char → Bool
  | _, [] => Bool.false
  | prev, c :: cs =>
    (boundaryOk prev && ws.any fun w => matchesWordAt (c :: cs) w)
      || hasWordFromAux ws (some c) cs

/-- Regex `\b(w1|w2|...)\b/i`: some word of `ws` occurs in `l` delimited
by word boundaries. -/
def hasWordFrom (ws : List (List Char)) (l : List Char) : Bool :=
  hasWordFromAux ws none l

/-- The closed finite-verb set of the split filter in `splitStatements`
(semantic-service.ts line 465). -/
def splitVerbs : List (List Char) :=
  [ "is".data, "are".data, "was".data, "were".data, "has".data, "have".data
  , "had".data, "will".data, "would".data, "can".data, "could".data
  , "does".data, "did".data ]

/-- `/\b(is|are|...|did)\b/i.test(part)`. -/
def hasVerb (part : List Char) : Bool := hasWordFrom splitVerbs part

/-- The conjunction list of `splitStatements` (lines 430-446), in source
order. -/
def conjunctions : List (List Char) :=
  [ " and ".data, " but ".data, " or ".data, " so ".data, " because ".data
  , " however ".data, " therefore ".data, " moreover ".data
  , " furthermore ".data, " additionally ".data, " also ".data
  , ", and ".data, ", but ".data, ", so ".data, "; ".data ]

/-- The split-candidate filter of `splitStatements` (lines 463-469): split
pieces that contain a finite verb and whose trimmed length exceeds 5. -/
def validParts (conj sentence : List Char) : List (List Char) :=
  (splitOnCI sentence conj).filter fun part =>
    hasVerb part && decide (5 < (trimL part).length)

/-- The conjunction loop of `splitStatements` (lines 458-477): the first
conjunction that occurs in the sentence and yields more than one valid
part wins and its trimmed valid parts are emitted; otherwise `none`. -/
def tryConjs : List (List Char) → List Char → Option (List (List Char))
  | [], _ => none
  | conj :: rest, r =>
    if containsCI (toLowerL r) conj && decide (1 < (validParts conj r).length) then
      some ((validParts conj r).map trimL)
    else tryConjs rest r

/-- Per-sentence body of the `for (const sentence of sentences)` loop
(lines 453-483): split on the first winning conjunction, else emit the
trimmed sentence whole when non-empty. -/
def processSentence (sentence : List Char) : List (List Char) :=
  let r := trimL sentence
  match tryConjs conjunctions r with
  | some ps => ps
  | none => if 0 < r.length then [r] else []

/-- Port of `splitStatements` (semantic-service.ts lines 420-487) applied
to an already-improved text: split into sentences, process each, and fall
back to the single improved text when nothing was extracted. -/
def splitStatementsFrom (improvedText : List Char) : List (List Char) :=
  let sentences := (splitSentences improvedText).filter fun s => !(trimL s).isEmpty
  let statements := sentences.flatMap processSentence
  if 0 < statements.length then statements else [improvedText]

/-- `splitStatements` in the offline mode: with no remote key configured
(or any remote failure) `analyzeTranscription` returns `fallbackAnalysis`,
whose `improvedText` is the input transcription unchanged, so the text fed
to the splitter is the original input. -/
def splitStatements (text : List Char) : List (List Char) :=
  splitStatementsFrom text

/-- Statement kinds of voice-service.ts (`StatementType`). -/
inductive StatementType where
  | declarative
  | opinion
  | question
  | other
deriving DecidableEq

/-- Question prefixes of `classifyStatementType` (voice-service.ts lines
669-680). -/
def questionStarts : List (List Char) :=
  [ "how ".data, "what ".data, "when ".data, "where ".data, "who ".data
  , "why ".data, "could you ".data, "would you ".data, "can you ".data ]

/-- Opinion substrings of lines 686-690. -/
def opinionContains : List (List Char) :=
  [ "i think".data, "i believe".data, "in my opinion".data, "i feel".data
  , "i prefer".data ]

/-- Opinion prefixes of lines 691-694. -/
def opinionStarts : List (List Char) :=
  [ "i like".data, "i dislike".data, "i love".data, "i hate".data ]

/-- Copular/auxiliary substrings of the factual-structure test (lines
702-711). -/
def factualContains : List (List Char) :=
  [ " is ".data, " are ".data, " was ".data, " were ".data, " has ".data
  , " have ".data, " will ".data, " can ".data, " does ".data, " did ".data ]

/-- Pronoun words of `/\b(the|it|this|that|they|there)\b/` (line 712). -/
def factualPronouns : List (List Char) :=
  [ "the".data, "it".data, "this".data, "that".data, "they".data, "there".data ]

/-- Port of the local heuristic `classifyStatementType` (voice-service.ts
lines 665-720). -/
def classifyStatementType (text : List Char) : StatementType :=
  let normalized := toLowerL (trimL text)
  if endsWithCI normalized "?".data
      || questionStarts.any (fun p => startsWithCI normalized p) then
    .question
  else if opinionContains.any (fun p => containsCI normalized p)
      || opinionStarts.any (fun p => startsWithCI normalized p) then
    .opinion
  else if factualContains.any (fun p => containsCI normalized p)
      || hasWordFrom factualPronouns normalized
      || normalized.any Char.isDigit then
    .declarative
  else
    .other

/-- Parsed JSON body of the remote classification response
(`classifyStatementWithClaude`): `type` is a raw string, `confidence` and
`reasoning` may be absent. -/
structure ClaudeClassifyData where
  type : String
  confidence : Option ℚ
  reasoning : Option String
deriving DecidableEq

/-- Return shape of `classifyStatementWithClaude`. -/
structure ClassificationResult where
  isDeclarative : Bool
  confidence : ℚ
  reasoning : String
deriving DecidableEq

/-- Port of `classifyStatementWithClaude` (semantic-service.ts lines
330-414): with no API key it returns `isDeclarative: true` with fixed
confidence 0.5; a thrown error likewise defaults to declarative with
confidence 0.5; a successful call compares `result.type` against
`"declarative"` and applies `||` defaults. -/
def classifyStatementWithClaude : CallOutcome ClaudeClassifyData → ClassificationResult
  | .notConfigured => ⟨Bool.true, 1/2, "API key not configured, using fallback"⟩
  | .failure _ => ⟨Bool.true, 1/2, "Classification failed, defaulting to declarative"⟩
  | .success d =>
    ⟨decide (d.type = "declarative"), jsOrNum d.confidence (4/5), jsOrStr d.reasoning ""⟩

/-- The statement-type selection of `handleTranscription` (voice-service.ts
lines 559-562): the `isDeclarative` flag from Claude wins; the local heuristic is
consulted only when the classification is non-declarative. -/
def statementTypeOf (classification : ClassificationResult)
    (statement : List Char) : StatementType :=
  if classification.isDeclarative then StatementType.declarative
  else classifyStatementType statement

/-- Queue-entry lifecycle states (`SpeakerQueueProcessingStatus`). -/
inductive ProcessingStatus where
  | pending
  | processing
  | processed
  | failed
deriving DecidableEq

/-- Outcomes of the four awaited calls inside `processStatement`
(API_SETUP.md app component, lines 551-651): the upsert moving the entry
to Processing, the verification itself, the upsert moving it to Processed,
and the upsert performed by the catch handler when marking it Failed. -/
structure ProcessOutcomes where
  upsertProcessing : Except String Unit
  verify : Except String VerificationResultS
  upsertProcessed : Except String Unit
  upsertFailed : Except String Unit

/-- Catch handler of `processStatement` (lines 634-648): upsert the Failed
record, then update the in-memory view; if that upsert itself throws the
error escapes the (un-awaited) async function and the in-memory status is
left unchanged. -/
def markFailed (o : ProcessOutcomes) (hist : List ProcessingStatus) :
    List ProcessingStatus :=
  match o.upsertFailed with
  | .error _ => hist
  | .ok _ => hist ++ [ProcessingStatus.failed]

/-- In-memory status history of one queue entry through `processStatement`
(lines 551-651), starting from the Pending record inserted by
`handleTranscription`.  Each upsert precedes its in-memory update, and all
three awaited steps of the `try` block share the single catch handler. -/
def processStatementTrace (o : ProcessOutcomes) : List ProcessingStatus :=
  match o.upsertProcessing with
  | .error _ => markFailed o [ProcessingStatus.pending]
  | .ok _ =>
    match o.verify with
    | .error _ => markFailed o [ProcessingStatus.pending, ProcessingStatus.processing]
    | .ok _ =>
      match o.upsertProcessed with
      | .error _ => markFailed o [ProcessingStatus.pending, ProcessingStatus.processing]
      | .ok _ => [ProcessingStatus.pending, ProcessingStatus.processing, ProcessingStatus.processed]

/-- Rank of a status in the lifecycle order; Processed and Failed share
the top rank, so a strictly rank-increasing trace never leaves either. -/
def statusRank : ProcessingStatus → ℕ
  | .pending => 0
  | .processing => 1
  | .processed => 2
  | .failed => 2

/-- Modelled from the claim: the transition set
Pending→Processing, Processing→Processed, Processing→Failed asserted by
the status-monotonicity claim.  Used only to compare the claim against
the traces the code produces. -/
def claimAllowedStep : ProcessingStatus → ProcessingStatus → Bool
  | .pending, .processing => Bool.true
  | .processing, .processed => Bool.true
  | .processing, .failed => Bool.true
  | _, _ => Bool.false

/-- The condition polled every 100ms by `waitForBreak` (lines 608-617):
`!isCurrentlySpeaking && Date.now() - lastAudioTime > 1000`.  Both
`isCurrentlySpeaking` and `lastAudioTime` are `const` bindings captured by
the `useCallback` closure when `processStatement` was created, so within
one wait they are fixed snapshots `s0` and `t0`; only `Date.now()`
advances. -/
def pollCond (s0 : Bool) (t0 now : ℕ) : Bool :=
  !s0 && decide (1000 < now - t0)

/-- Time (ms) at which `waitForBreak` resolves when scheduled at `sched`:
the first of the 100ms poll ticks whose condition holds, or the fixed
10000ms ceiling (lines 619-623). -/
def fireTime (s0 : Bool) (t0 sched : ℕ) : ℕ :=
  match (List.range 100).findSome? (fun k =>
      if pollCond s0 t0 (sched + 100 * (k + 1)) then some (sched + 100 * (k + 1))
      else none) with
  | some t => t
  | none => sched + 10000

/-- The fixed empathetic lead-in of line 630 (the apostrophe is written
via its code point). -/
def correctionLeadIn : String :=
  "Actually, that" ++ String.singleton (Char.ofNat 39) ++ "s not quite right. "

/-- The spoken text of line 630-631:
lead-in followed by `verificationResult.correctInformation`. -/
def interjectionMessage (correctInformation : String) : String :=
  correctionLeadIn ++ correctInformation

/-- Modelled from the claim: the speech-output call happens only once the
live speaking `signal` has been continuously false for more than 1000ms,
or once the 10000ms ceiling since scheduling has elapsed. -/
def interjectionClaimProperty (signal : ℕ → Bool) (s0 : Bool) (t0 sched : ℕ) : Prop :=
  sched + 10000 ≤ fireTime s0 t0 sched ∨
    ∀ u, fireTime s0 t0 sched ≤ u + 1000 → u < fireTime s0 t0 sched →
      signal u = Bool.false

/-- Agent outcomes in which every remote call throws. -/
def allFailOutcomes : AgentOutcomes :=
  ⟨.failure "network down", .failure "network down", .failure "network down",
    .failure "network down", .failure "network down"⟩

/-- Agent outcomes in which only Llama answers, voting False with a
duplicated citation list. -/
def dupCitationOutcomes : AgentOutcomes :=
  ⟨.notConfigured, .notConfigured, .notConfigured, .notConfigured,
    .success ⟨Verdict.false, 9/10, "The statement is wrong", some ["src A", "src A"]⟩⟩

/-- Agent outcomes in which only Claude answers, voting False with an
empty reasoning string. -/
def emptyReasoningOutcomes : AgentOutcomes :=
  ⟨.success ⟨Verdict.false, 9/10, ""⟩, .notConfigured, .notConfigured,
    .notConfigured, .notConfigured⟩

/-- A fixed verification result used as the successful-verification payload
in queue-trace fixtures. -/
def fixtureResult : VerificationResultS :=
  verifyStatement "id-1" "stmt" allFailOutcomes
    (.success ⟨Verdict.inconclusive, 0⟩) .notConfigured

/-- Modelled from the claim: the asserted per-sentence splitter behaviour —
the sentence is either emitted whole, or split at one conjunction
occurrence into exactly the two surrounding halves, both of which contain
a finite verb and have trimmed length above 5.  Used only to compare the
claim against what the code emits. -/
def claimBinarySplit (s : List Char) (out : List (List Char)) : Prop :=
  (decide (out = [trimL s]) ||
    conjunctions.any fun conj =>
      (List.range (trimL s).length).any fun k =>
        startsWithCI ((trimL s).drop k) conj &&
        hasVerb ((trimL s).take k) &&
        hasVerb ((trimL s).drop (k + conj.length)) &&
        decide (5 < (trimL ((trimL s).take k)).length) &&
        decide (5 < (trimL ((trimL s).drop (k + conj.length))).length) &&
        decide (out = [trimL ((trimL s).take k),
          trimL ((trimL s).drop (k + conj.length))])) = Bool.true

/-- C1: the local consensus fallback follows the 60% threshold rule and on
Scenario B returns Inconclusive with score 3/5. -/
theorem calculateLocalConsensus_spec (agents : List VerificationAgent)
    (h : agents ≠ []) :
    (consensusThreshold ≤ (falseCount agents : ℚ) / agents.length →
      calculateLocalConsensus agents =
        ⟨Verdict.false, (falseCount agents : ℚ) / agents.length⟩) ∧
    ((falseCount agents : ℚ) / agents.length < consensusThreshold →
      consensusThreshold ≤ (trueCount agents : ℚ) / agents.length →
      calculateLocalConsensus agents =
        ⟨Verdict.true, (trueCount agents : ℚ) / agents.length⟩) ∧
    ((falseCount agents : ℚ) / agents.length < consensusThreshold →
      (trueCount agents : ℚ) / agents.length < consensusThreshold →
      calculateLocalConsensus agents =
        ⟨Verdict.inconclusive,
          max ((falseCount agents : ℚ) / agents.length)
            (max ((trueCount agents : ℚ) / agents.length)
              ((inconclusiveCount agents : ℚ) / agents.length))⟩) ∧
    calculateLocalConsensus scenarioB = ⟨Verdict.inconclusive, 3/5⟩ := by
  have hN : (0 : ℚ) < (agents.length : ℚ) := by
    have : 0 < agents.length := List.length_pos.mpr h
    exact_mod_cast this
  have hsc : calculateLocalConsensus scenarioB = ⟨Verdict.inconclusive, 3/5⟩ := by
    have hf0 : falseCount scenarioB = 0 := rfl
    have ht2 : trueCount scenarioB = 2 := rfl
    have hi3 : inconclusiveCount scenarioB = 3 := rfl
    have hlen : scenarioB.length = 5 := rfl
    simp only [calculateLocalConsensus, hf0, ht2, hi3, hlen, consensusThreshold]
    norm_num
  refine ⟨?_, ?_, ?_, hsc⟩
  · intro hf
    simp only [calculateLocalConsensus]
    rw [if_pos (show _ ≥ _ from hf)]
  · intro hf ht
    simp only [calculateLocalConsensus]
    rw [if_neg (show ¬ _ ≥ _ from not_le.mpr hf), if_pos (show _ ≥ _ from ht)]
  · intro hf ht
    simp only [calculateLocalConsensus]
    rw [if_neg (show ¬ _ ≥ _ from not_le.mpr hf),
      if_neg (show ¬ _ ≥ _ from not_le.mpr ht)]
    congr 1
    rw [Nat.cast_max, Nat.cast_max, ← max_div_div_right (le_of_lt hN),
      ← max_div_div_right (le_of_lt hN), max_assoc]

/-- Witness for C1: the Scenario B instantiation of the consensus rule. -/
theorem calculateLocalConsensus_spec_witness :
    calculateLocalConsensus scenarioB = ⟨Verdict.inconclusive, 3/5⟩ :=
  (calculateLocalConsensus_spec scenarioB (by decide)).2.2.2

theorem ws_char_not_sep (c : Char) (h : c.isWhitespace = true) :
    isSentenceSep c = false := by
  simp [Char.isWhitespace] at h
  rcases h with ((h | h) | h) | h <;> subst h <;> decide

theorem trimL_nil_all_ws (l : List Char) (h : trimL l = []) :
    ∀ c ∈ l, c.isWhitespace = true := by
  intro c hc
  have h1 : (l.dropWhile Char.isWhitespace).reverse.dropWhile Char.isWhitespace = [] :=
    List.reverse_eq_nil_iff.mp h
  have h2 : ∀ x ∈ l.dropWhile Char.isWhitespace, x.isWhitespace = true := by
    intro x hx
    exact List.dropWhile_eq_nil_iff.mp h1 x (List.mem_reverse.mpr hx)
  rw [← List.takeWhile_append_dropWhile (p := Char.isWhitespace) (l := l)] at hc
  rcases List.mem_append.mp hc with hx | hx
  · exact List.mem_takeWhile_imp hx
  · exact h2 c hx

theorem splitSentencesAux_no_sep :
    ∀ (l acc : List Char), (∀ c ∈ l, isSentenceSep c = false) →
      splitSentencesAux l acc = [acc.reverse ++ l] := by
  intro l
  induction l with
  | nil => intro acc _; simp [splitSentencesAux]
  | cons c cs ih =>
    intro acc h
    have hc : isSentenceSep c = false := h c (List.mem_cons_self c cs)
    rw [splitSentencesAux, if_neg (by simp [hc])]
    rw [ih (c :: acc) (fun x hx => h x (List.mem_cons_of_mem c hx))]
    simp

theorem verifyStatement_correctionData (statementId statement : String)
    (o : AgentOutcomes) (cc : CallOutcome LavaConsensusData)
    (synth : CallOutcome String)
    (hFalse : (verifyStatement statementId statement o cc synth).isFalse = Bool.true) :
    (verifyStatement statementId statement o cc synth).correctInformation =
      some (generateCorrectInformation statement (resultAgents o) synth).1 ∧
    (verifyStatement statementId statement o cc synth).citations =
      some (generateCorrectInformation statement (resultAgents o) synth).2 := by
  simp only [verifyStatement] at hFalse ⊢
  rw [if_pos hFalse]
  exact ⟨rfl, rfl⟩

/-- C2: `verifyStatement` produces exactly five agent entries, one per
configured agent in dispatch order, computes the consensus from that full
settled list, and converts any single agent call that throws into an
Inconclusive verdict with confidence 0 whose reasoning carries the
failure reason, instead of aborting the verification. -/
theorem verifyStatement_settles_all (statementId statement : String)
    (o : AgentOutcomes) (cc : CallOutcome LavaConsensusData)
    (synth : CallOutcome String) :
    (verifyStatement statementId statement o cc synth).agents.length = 5 ∧
    (verifyStatement statementId statement o cc synth).lavaGatewayConsensus =
      getLavaGatewayConsensus cc (verifyStatement statementId statement o cc synth).agents ∧
    (∀ msg, o.claude = CallOutcome.failure msg →
      (verifyStatement statementId statement o cc synth).agents[0]? =
        some ⟨"Claude (Anthropic)", Verdict.inconclusive, 0, some ("Error: " ++ msg), none⟩) ∧
    (∀ msg, o.fetchAI = CallOutcome.failure msg →
      (verifyStatement statementId statement o cc synth).agents[1]? =
        some ⟨"Fetch.ai", Verdict.inconclusive, 0, some ("Error: " ++ msg), none⟩) ∧
    (∀ msg, o.gemini = CallOutcome.failure msg →
      (verifyStatement statementId statement o cc synth).agents[2]? =
        some ⟨"Gemini (Google)", Verdict.inconclusive, 0, some ("Error: " ++ msg), none⟩) ∧
    (∀ msg, o.brightData = CallOutcome.failure msg →
      (verifyStatement statementId statement o cc synth).agents[3]? =
        some ⟨"Bright Data", Verdict.inconclusive, 0, some ("Error: " ++ msg), none⟩) ∧
    (∀ msg, o.llama = CallOutcome.failure msg →
      (verifyStatement statementId statement o cc synth).agents[4]? =
        some ⟨"Llama (Lava Portal)", Verdict.inconclusive, 0, some ("Error: " ++ msg), none⟩) := by
  obtain ⟨c, f, g, b, l⟩ := o
  refine ⟨rfl, rfl, ?_, ?_, ?_, ?_, ?_⟩ <;> (intro msg h; subst h; rfl)

/-- Witness for C2: a run in which every agent call throws still yields
five entries, the first being the converted Claude failure. -/
theorem verifyStatement_settles_all_witness :
    (verifyStatement "id-1" "stmt" allFailOutcomes CallOutcome.notConfigured
        CallOutcome.notConfigured).agents[0]? =
      some ⟨"Claude (Anthropic)", Verdict.inconclusive, 0,
        some ("Error: " ++ "network down"), none⟩ :=
  (verifyStatement_settles_all "id-1" "stmt" allFailOutcomes
    CallOutcome.notConfigured CallOutcome.notConfigured).2.2.1 "network down" rfl

/-- C3 counterexample: with a single False-voting agent whose citation
list is ["src A", "src A"] and a remote consensus of False, the returned
citation list is ["src A", "src A"] itself — the same citation appears
twice, so the list is not a deduplicated union. -/
theorem citations_not_deduplicated :
    (verifyStatement "id-1" "stmt" dupCitationOutcomes
        (CallOutcome.success ⟨Verdict.false, 9/10⟩) CallOutcome.notConfigured).isFalse
      = Bool.true ∧
    (verifyStatement "id-1" "stmt" dupCitationOutcomes
        (CallOutcome.success ⟨Verdict.false, 9/10⟩) CallOutcome.notConfigured).citations
      = some ["src A", "src A"] ∧
    ¬ (["src A", "src A"] : List String).Nodup := by
  refine ⟨rfl, rfl, ?_⟩
  decide

theorem gci_nil (st : String) (ag : List VerificationAgent)
    (sy : CallOutcome String) (h : falseReasonings ag = []) :
    generateCorrectInformation st ag sy = (genericFalseMessage, []) := by
  unfold generateCorrectInformation
  rw [h]

theorem gci_cons (st : String) (ag : List VerificationAgent)
    (sy : CallOutcome String) (r : String) (rs : List String)
    (h : falseReasonings ag = r :: rs) (h2 : ∀ t, sy ≠ CallOutcome.success t) :
    generateCorrectInformation st ag sy = ("Correction: " ++ r, allCitations ag) := by
  unfold generateCorrectInformation
  rw [h]
  cases sy with
  | success t => exact absurd rfl (h2 t)
  | notConfigured => rfl
  | failure m => rfl

theorem gci_cons_success (st : String) (ag : List VerificationAgent)
    (t r : String) (rs : List String) (h : falseReasonings ag = r :: rs) :
    generateCorrectInformation st ag (CallOutcome.success t) = (t, allCitations ag) := by
  unfold generateCorrectInformation
  rw [h]

/-- C3 amended: when the final verdict is False and some False-voting
agent supplied a truthy reasoning, the returned citation list is the
plain concatenation, in agent order, of the False-voting agent citation
lists, duplicates preserved; when no truthy False-reasoning exists the
citation list is empty even if False voters carry citations. -/
theorem verifyStatement_citations_concat (statementId statement : String)
    (o : AgentOutcomes) (cc : CallOutcome LavaConsensusData)
    (synth : CallOutcome String)
    (hFalse : (verifyStatement statementId statement o cc synth).isFalse = Bool.true) :
    (falseReasonings (resultAgents o) ≠ [] →
      (verifyStatement statementId statement o cc synth).citations =
        some (allCitations (resultAgents o))) ∧
    (falseReasonings (resultAgents o) = [] →
      (verifyStatement statementId statement o cc synth).citations = some []) := by
  obtain ⟨-, hcit⟩ := verifyStatement_correctionData statementId statement o cc synth hFalse
  constructor
  · intro hne
    rw [hcit]
    rcases hr : falseReasonings (resultAgents o) with - | ⟨r, rs⟩
    · exact absurd hr hne
    · cases synth with
      | success t => rw [gci_cons_success statement (resultAgents o) t r rs hr]
      | notConfigured =>
        rw [gci_cons statement (resultAgents o) _ r rs hr (fun t h => by cases h)]
      | failure m =>
        rw [gci_cons statement (resultAgents o) _ r rs hr (fun t h => by cases h)]
  · intro hnil
    rw [hcit, gci_nil statement (resultAgents o) synth hnil]

/-- Witness for the amended C3: the duplicated-citation run instantiated
concretely. -/
theorem verifyStatement_citations_concat_witness :
    (verifyStatement "id-1" "stmt" dupCitationOutcomes
        (CallOutcome.success ⟨Verdict.false, 9/10⟩) CallOutcome.notConfigured).citations =
      some (allCitations (resultAgents dupCitationOutcomes)) :=
  (verifyStatement_citations_concat "id-1" "stmt" dupCitationOutcomes
    (CallOutcome.success ⟨Verdict.false, 9/10⟩) CallOutcome.notConfigured rfl).1 (by decide)

/-- C4 counterexample: one agent votes False but with an empty reasoning
string, and the synthesis call is unconfigured; the claim expects the
fallback "Correction: " quoting the reasoning of that first False voter, but
the code returns the generic no-correction message instead (the False
voter is dropped by the truthiness filter). -/
theorem correction_fallback_not_first_reasoning :
    (falseVoters (verifyStatement "id-1" "stmt" emptyReasoningOutcomes
        (CallOutcome.success ⟨Verdict.false, 9/10⟩) CallOutcome.notConfigured).agents).map
        VerificationAgent.reasoning = [some ""] ∧
    (verifyStatement "id-1" "stmt" emptyReasoningOutcomes
        (CallOutcome.success ⟨Verdict.false, 9/10⟩) CallOutcome.notConfigured).correctInformation
      = some genericFalseMessage ∧
    (verifyStatement "id-1" "stmt" emptyReasoningOutcomes
        (CallOutcome.success ⟨Verdict.false, 9/10⟩) CallOutcome.notConfigured).correctInformation
      ≠ some ("Correction: " ++ "") := by
  refine ⟨rfl, rfl, ?_⟩
  decide

/-- C4 amended: the synthesizer branches on the truthy False-voter
reasonings, not on False votes: when no False voter has a non-empty
reasoning it returns the generic message with empty citations (even if
agents voted False), and when at least one does and the synthesis call is
unconfigured, fails or is non-ok, it returns the first such truthy
reasoning prefixed with the fixed "Correction: " label. -/
theorem generateCorrectInformation_spec (statementId statement : String)
    (o : AgentOutcomes) (cc : CallOutcome LavaConsensusData)
    (synth : CallOutcome String)
    (hFalse : (verifyStatement statementId statement o cc synth).isFalse = Bool.true) :
    (falseReasonings (resultAgents o) = [] →
      (verifyStatement statementId statement o cc synth).correctInformation =
        some genericFalseMessage ∧
      (verifyStatement statementId statement o cc synth).citations = some []) ∧
    (∀ r rs, falseReasonings (resultAgents o) = r :: rs →
      (∀ t, synth ≠ CallOutcome.success t) →
      (verifyStatement statementId statement o cc synth).correctInformation =
        some ("Correction: " ++ r)) := by
  obtain ⟨hci, hcit⟩ := verifyStatement_correctionData statementId statement o cc synth hFalse
  constructor
  · intro hnil
    rw [hci, hcit, gci_nil statement (resultAgents o) synth hnil]
    exact ⟨rfl, rfl⟩
  · intro r rs hcons hsynth
    rw [hci, gci_cons statement (resultAgents o) synth r rs hcons hsynth]

/-- Witness for the amended C4: the empty-reasoning run lands in the
generic-message branch. -/
theorem generateCorrectInformation_spec_witness :
    (verifyStatement "id-1" "stmt" emptyReasoningOutcomes
        (CallOutcome.success ⟨Verdict.false, 9/10⟩) CallOutcome.notConfigured).correctInformation
      = some genericFalseMessage :=
  ((generateCorrectInformation_spec "id-1" "stmt" emptyReasoningOutcomes
    (CallOutcome.success ⟨Verdict.false, 9/10⟩) CallOutcome.notConfigured rfl).1 rfl).1

/-- C5 counterexample: the local rule classifies "What time is it?" as a
Question, but with the remote classifier unconfigured the final kind is
Declarative — the classifier does not degrade to the local rule. -/
theorem classifier_offline_not_question :
    classifyStatementType "What time is it?".data = StatementType.question ∧
    statementTypeOf (classifyStatementWithClaude CallOutcome.notConfigured)
        "What time is it?".data = StatementType.declarative ∧
    StatementType.declarative ≠ StatementType.question := by
  refine ⟨by decide, rfl, by decide⟩

/-- C5 amended: when the remote classification call is unconfigured or
fails, `classifyStatementWithClaude` returns `isDeclarative := true` with
the fixed confidence 0.5, so the final kind is Declarative regardless of
the local rules; the local rule decides the kind only when the remote
call succeeds and judges the text non-declarative. -/
theorem classifyStatementWithClaude_fallback (text : List Char) (msg : String) :
    statementTypeOf (classifyStatementWithClaude CallOutcome.notConfigured) text
      = StatementType.declarative ∧
    (classifyStatementWithClaude CallOutcome.notConfigured).confidence = 1/2 ∧
    statementTypeOf (classifyStatementWithClaude (CallOutcome.failure msg)) text
      = StatementType.declarative ∧
    (classifyStatementWithClaude (CallOutcome.failure msg)).confidence = 1/2 ∧
    (∀ d : ClaudeClassifyData, d.type ≠ "declarative" →
      statementTypeOf (classifyStatementWithClaude (CallOutcome.success d)) text
        = classifyStatementType text) := by
  refine ⟨rfl, rfl, rfl, rfl, ?_⟩
  intro d hd
  simp [statementTypeOf, classifyStatementWithClaude, hd]

/-- Witness for the amended C5: a successful remote call judging the text
non-declarative hands the decision to the local rule. -/
theorem classifyStatementWithClaude_fallback_witness :
    statementTypeOf
        (classifyStatementWithClaude
          (CallOutcome.success ⟨"question", some (9/10), some "it asks"⟩))
        "What time is it?".data
      = classifyStatementType "What time is it?".data :=
  (classifyStatementWithClaude_fallback "What time is it?".data "x").2.2.2.2
    ⟨"question", some (9/10), some "it asks"⟩ (by decide)

/-- C6: the segmenter never returns an empty list; an input that is empty
after trimming is returned unchanged as the single statement; and the
compound sentence "The sky is blue and water is wet" splits into exactly
its two clauses. -/
theorem splitStatements_spec (text : List Char) :
    splitStatements text ≠ [] ∧
    (trimL text = [] → splitStatements text = [text]) ∧
    splitStatements "The sky is blue and water is wet".data =
      ["The sky is blue".data, "water is wet".data] := by
  refine ⟨?_, ?_, by decide⟩
  · simp only [splitStatements, splitStatementsFrom]
    split
    · next h => exact List.length_pos.mp h
    · exact List.cons_ne_nil _ _
  · intro htrim
    have hall : ∀ c ∈ text, c.isWhitespace = true := trimL_nil_all_ws text htrim
    have hnosep : ∀ c ∈ text, isSentenceSep c = false :=
      fun c hc => ws_char_not_sep c (hall c hc)
    have hsplit : splitSentences text = [text] := by
      have h0 := splitSentencesAux_no_sep text [] hnosep
      simpa [splitSentences] using h0
    simp only [splitStatements, splitStatementsFrom, hsplit]
    simp [htrim]

theorem tryConjs_spec (cs : List (List Char)) (r : List Char) :
    (∃ conj ∈ cs,
        (containsCI (toLowerL r) conj && decide (1 < (validParts conj r).length)) = Bool.true ∧
        tryConjs cs r = some ((validParts conj r).map trimL)) ∨
    ((∀ conj ∈ cs,
        ¬ (containsCI (toLowerL r) conj && decide (1 < (validParts conj r).length)) = Bool.true) ∧
      tryConjs cs r = none) := by
  induction cs with
  | nil => right; exact ⟨by simp, rfl⟩
  | cons conj rest ih =>
    by_cases h :
        (containsCI (toLowerL r) conj && decide (1 < (validParts conj r).length)) = Bool.true
    · left
      exact ⟨conj, List.mem_cons_self conj rest, h, by rw [tryConjs, if_pos h]⟩
    · rcases ih with ⟨c2, hmem, hc2, heq⟩ | ⟨hall, heq⟩
      · left
        exact ⟨c2, List.mem_cons_of_mem conj hmem, hc2, by rw [tryConjs, if_neg h]; exact heq⟩
      · right
        refine ⟨?_, by rw [tryConjs, if_neg h]; exact heq⟩
        intro c2 hmem
        rcases List.mem_cons.mp hmem with hc2 | hc2
        · subst hc2; exact h
        · exact hall c2 hc2

/-- C7 counterexample: for the sentence "it is red and cap and water is
wet" the code emits ["it is red", "water is wet"], silently dropping the
verbless middle part "cap"; the output is neither the whole sentence nor
any binary split at a conjunction occurrence whose two halves both pass
the verb/length test, refuting the claimed both-halves rule. -/
theorem splitStatements_drops_invalid_parts :
    splitStatements "it is red and cap and water is wet".data =
      ["it is red".data, "water is wet".data] ∧
    ¬ claimBinarySplit "it is red and cap and water is wet".data
        (splitStatements "it is red and cap and water is wet".data) := by
  refine ⟨by decide, ?_⟩
  unfold claimBinarySplit
  decide

/-- C7 amended: within a sentence the code accepts the first conjunction
whose case-insensitive split yields more than one valid part (a part is
valid when it contains a finite verb from the closed set and its trimmed
length exceeds 5); the emitted statements are exactly those valid parts,
trimmed — parts failing the test are dropped, even between kept parts —
and only when no conjunction yields at least two valid parts is the
trimmed sentence emitted whole. -/
theorem processSentence_spec (s : List Char) :
    (∃ conj ∈ conjunctions,
        containsCI (toLowerL (trimL s)) conj = Bool.true ∧
        1 < (validParts conj (trimL s)).length ∧
        processSentence s = (validParts conj (trimL s)).map trimL) ∨
    ((∀ conj ∈ conjunctions,
        ¬ (containsCI (toLowerL (trimL s)) conj = Bool.true ∧
            1 < (validParts conj (trimL s)).length)) ∧
      processSentence s = if 0 < (trimL s).length then [trimL s] else []) := by
  rcases tryConjs_spec conjunctions (trimL s) with ⟨conj, hmem, hc, heq⟩ | ⟨hall, heq⟩
  · left
    rw [Bool.and_eq_true, decide_eq_true_eq] at hc
    refine ⟨conj, hmem, hc.1, hc.2, ?_⟩
    simp only [processSentence, heq]
  · right
    constructor
    · intro conj hmem hcontr
      apply hall conj hmem
      rw [Bool.and_eq_true, decide_eq_true_eq]
      exact hcontr
    · simp only [processSentence, heq]

/-- Witness for the amended C7: a sentence containing no conjunction at
all is emitted whole. -/
theorem processSentence_spec_witness :
    processSentence "water is wet".data = [trimL "water is wet".data] := by
  rcases processSentence_spec "water is wet".data with ⟨conj, hmem, hc, hlen, heq⟩ | ⟨hall, heq⟩
  · exfalso
    simp only [conjunctions, List.mem_cons, List.not_mem_nil, or_false] at hmem
    rcases hmem with h | h | h | h | h | h | h | h | h | h | h | h | h | h | h <;>
      subst h <;> exact absurd hc (by decide)
  · rw [heq]
    decide

/-- Witness for C6: a whitespace-only input is returned unchanged. -/
theorem splitStatements_spec_witness :
    trimL "   ".data = [] ∧ splitStatements "   ".data = ["   ".data] :=
  ⟨by decide, (splitStatements_spec "   ".data).2.1 (by decide)⟩

/-- C8 counterexample: when the upsert that should move the entry to
Processing throws, the in-memory history is Pending followed directly by
Failed — a transition outside the set the claim allows. -/
theorem statusTrace_pending_to_failed :
    processStatementTrace
        ⟨Except.error "record store down", Except.ok fixtureResult, Except.ok (), Except.ok ()⟩ =
      [ProcessingStatus.pending, ProcessingStatus.failed] ∧
    claimAllowedStep ProcessingStatus.pending ProcessingStatus.failed = Bool.false :=
  ⟨rfl, rfl⟩

/-- C8 amended: the in-memory status history starts at Pending, is
strictly increasing in lifecycle rank (so it never moves backward and no
transition leaves Processed or Failed), and contains Processed only when
the verification produced a result; the normal path is
Pending→Processing→{Processed, Failed}, but when the initial Processing
upsert throws the entry moves directly Pending→Failed, and when the
Failed upsert itself throws the history simply ends early. -/
theorem processStatementTrace_monotonic (o : ProcessOutcomes) :
    List.Pairwise (fun a b => statusRank a < statusRank b) (processStatementTrace o) ∧
    (ProcessingStatus.processed ∈ processStatementTrace o → ∃ r, o.verify = Except.ok r) ∧
    (processStatementTrace o).head? = some ProcessingStatus.pending := by
  obtain ⟨u1, v, u2, uf⟩ := o
  cases u1 <;> cases v <;> cases u2 <;> cases uf <;>
    simp only [processStatementTrace, markFailed] <;>
    refine ⟨by decide, fun h => ?_, by decide⟩ <;>
    first
      | exact ⟨_, rfl⟩
      | exact absurd h (by decide)

/-- Witness for the amended C8: the all-successful run contains Processed
and indeed carries a verification result. -/
theorem processStatementTrace_monotonic_witness :
    ∃ r, (⟨Except.ok (), Except.ok fixtureResult, Except.ok (), Except.ok ()⟩ :
        ProcessOutcomes).verify = Except.ok r :=
  (processStatementTrace_monotonic
    ⟨Except.ok (), Except.ok fixtureResult, Except.ok (), Except.ok ()⟩).2.1 (by decide)

/-- C9 counterexample: two runs that differ only in the outcome of the
Processed-persistence upsert end in different terminal states — the
persistence failure alone flips the entry from Processed to Failed. -/
theorem persistFailure_changes_outcome :
    (processStatementTrace
        ⟨Except.ok (), Except.ok fixtureResult, Except.ok (), Except.ok ()⟩).getLast? =
      some ProcessingStatus.processed ∧
    (processStatementTrace
        ⟨Except.ok (), Except.ok fixtureResult, Except.error "record store down",
          Except.ok ()⟩).getLast? =
      some ProcessingStatus.failed :=
  ⟨rfl, rfl⟩

/-- C9 amended: upsert failures inside `processStatement` are not
separately guarded — they hit the statement-level catch handler, which
marks the entry Failed.  The entry therefore ends Processed exactly when
the Processing upsert, the verification and the Processed upsert all
succeed, so a persistence failure does change the terminal state; and
because each upsert precedes its in-memory update, the corresponding
in-memory transition never happens at all rather than being rolled
back. -/
theorem processed_iff_all_ok (o : ProcessOutcomes) :
    (processStatementTrace o).getLast? = some ProcessingStatus.processed ↔
      (∃ u, o.upsertProcessing = Except.ok u) ∧ (∃ r, o.verify = Except.ok r) ∧
        (∃ u, o.upsertProcessed = Except.ok u) := by
  obtain ⟨u1, v, u2, uf⟩ := o
  cases u1 <;> cases v <;> cases u2 <;> cases uf <;>
    simp [processStatementTrace, markFailed]

/-- Witness for the amended C9: the all-successful run ends Processed. -/
theorem processed_iff_all_ok_witness :
    (processStatementTrace
        ⟨Except.ok (), Except.ok fixtureResult, Except.ok (), Except.ok ()⟩).getLast? =
      some ProcessingStatus.processed :=
  (processed_iff_all_ok
    ⟨Except.ok (), Except.ok fixtureResult, Except.ok (), Except.ok ()⟩).mpr
    ⟨⟨(), rfl⟩, ⟨fixtureResult, rfl⟩, ⟨(), rfl⟩⟩

/-- C10: evaluation of the interjection wait at the failing input.  The
snapshot pair captured by the closure (speaking flag false, last-audio
time 0) makes the poll fire at its first 100ms tick, 5100ms — only 100ms
after scheduling at 5000ms — while the live speaking signal (true from
4000ms on) is still true; the claimed silence-or-ceiling gating property
fails, although the spoken text does carry the fixed lead-in. -/
theorem interjection_fires_while_speaking :
    fireTime Bool.false 0 5000 = 5100 ∧
    5100 < 5000 + 10000 ∧
    (fun u => decide (4000 ≤ u)) 5099 = Bool.true ∧
    ¬ interjectionClaimProperty (fun u => decide (4000 ≤ u)) Bool.false 0 5000 ∧
    interjectionMessage "The sky is green is false" =
      correctionLeadIn ++ "The sky is green is false" := by
  have hf : fireTime Bool.false 0 5000 = 5100 := by decide
  refine ⟨hf, by omega, by decide, ?_, rfl⟩
  intro hclaim
  rcases hclaim with h | h
  · rw [hf] at h
    omega
  · rw [hf] at h
    have h2 := h 5099 (by omega) (by omega)
    exact absurd h2 (by decide)
